import Mathlib

/-!
A shallow embedding of the document-chat HTTP service (`bot.py`) and proofs
about its ingestion, extraction, context-selection and chat behaviour.

The service state is the in-memory document table `loaded_documents` together
with the contents of the upload directory on disk; both are modelled as
insertion-ordered association lists, matching Python dict semantics
(assignment overwrites in place, iteration follows insertion order).

File parsing by the external libraries (python-docx, PyPDF2, the UTF-8 file
reader) is modelled by oracle functions from raw file bytes to
`Except String _`: an `Except.error e` models the library raising an
exception whose message is `e`, exactly what the `try/except` blocks in
`bot.py` catch.  Raw bytes are modelled as `String`.
-/

set_option autoImplicit false

namespace TashaApi

/-- Raw file contents as stored on disk; treated as an abstract blob. -/
abbrev Bytes := String

/-! ### Python string primitives used by `bot.py` -/

/-- Python `s.lower()` restricted to the ASCII case mapping, which is all the
code compares against (the extension literals are ASCII). -/
def pyLower (s : String) : String :=
  ⟨s.data.map Char.toLower⟩

/-- Python `s.endswith(suffix)`. -/
def pyEndsWith (s suffix : String) : Bool :=
  decide (suffix.data <:+ s.data)

/-- Python `s[:-4]`: all characters of `s` but the last four. -/
def pySliceDropLast4 (s : String) : String :=
  ⟨s.data.take (s.data.length - 4)⟩

/-- Python `s.rsplit('.', 1)[1]` for a string containing a dot: the part
after the last dot (for a dot-free string this yields `s` itself, but every
use is guarded by a containment check, as in the source). -/
def pyAfterLastDot (s : String) : String :=
  ⟨(s.data.reverse.takeWhile (fun c => c ≠ '.')).reverse⟩

/-! ### Python dict operations (insertion-ordered association lists) -/

/-- Python `d[k] = v`: overwrite in place if the key is present, else append. -/
def dictInsert (k : String) (v : String) : List (String × String) → List (String × String)
  | [] => [(k, v)]
  | (k', v') :: rest =>
      if k' = k then (k', v) :: rest else (k', v') :: dictInsert k v rest

/-- Python `d[k]` / `d.get(k)`: the value stored under the first matching key. -/
def dictLookup (k : String) : List (String × String) → Option String
  | [] => none
  | (k', v) :: rest => if k' = k then some v else dictLookup k rest

/-- Python `k in d`. -/
def dictContains (k : String) (d : List (String × String)) : Bool :=
  (dictLookup k d).isSome

/-- Python `list(d.keys())`. -/
def dictKeys (d : List (String × String)) : List String :=
  d.map (·.1)

/-! ### Text extraction (`extract_text_from_docx` / `_txt` / `_pdf`)

Each function receives the outcome of the underlying library call on the
file bytes: `Except.ok` carries the parsed data (paragraph texts for docx,
the decoded file text for txt, per-page extracted texts for pdf, with `""`
standing for a page whose `extract_text()` was falsy), `Except.error e`
models a raised exception with message `e`. -/

/-- Parsing oracles for the three supported formats, as functions of the raw
file bytes. -/
structure Extractors where
  docx : Bytes → Except String (List String)
  txt : Bytes → Except String String
  pdf : Bytes → Except String (List String)

def extract_text_from_docx (parsed : Except String (List String)) : String :=
  match parsed with
  | .ok paragraphs => String.intercalate "\n" paragraphs
  | .error e => "Error reading document: " ++ e

def extract_text_from_txt (readResult : Except String String) : String :=
  match readResult with
  | .ok contents => contents
  | .error e => "Error reading document: " ++ e

def extract_text_from_pdf (parsed : Except String (List String)) : String :=
  match parsed with
  | .ok pages => String.intercalate "\n" (pages.filter (fun t => t ≠ ""))
  | .error e => "Error reading PDF: " ++ e

/-! ### Server state and the upload endpoint -/

/-- The mutable state of the process: the in-memory document table and the
upload directory (filename to raw bytes). -/
structure ServerState where
  loaded_documents : List (String × String)
  uploads_dir : List (String × Bytes)

/-- An incoming multipart upload request: whether a `file` part is present,
the client-supplied filename, and the raw bytes. -/
structure UploadRequest where
  filePresent : Bool
  filename : String
  content : Bytes
deriving DecidableEq

inductive UploadResponse where
  | ok (message : String) (document_id : String)
  | badRequest (error : String)
deriving DecidableEq

def UploadResponse.statusCode : UploadResponse → Nat
  | .ok _ _ => 200
  | .badRequest _ => 400

/-- `allowed_file` from `bot.py`: a dot must occur and the lowercased part
after the last dot must be an allowed extension. -/
def allowed_file (filename : String) : Bool :=
  filename.data.contains '.' &&
    (pyLower (pyAfterLastDot filename) ∈ ["docx", "txt", "pdf"])

/-- Text extraction dispatch of `upload_document`, after the raw upload has
been saved: `fname` is the sanitized filename, `content` its bytes, and
`disk` the upload directory after the save.  For the just-saved file the
bytes on disk are `content`, so the extractor oracles are applied to it
directly; the docx-equivalent check genuinely reads the directory. -/
def ingestText (ex : Extractors) (fname : String) (content : Bytes)
    (disk : List (String × Bytes)) : String :=
  if pyEndsWith (pyLower fname) ".docx" then
    extract_text_from_docx (ex.docx content)
  else if pyEndsWith (pyLower fname) ".pdf" then
    match dictLookup (pySliceDropLast4 fname ++ ".docx") disk with
    | some docxBytes => extract_text_from_docx (ex.docx docxBytes)
    | none => extract_text_from_pdf (ex.pdf content)
  else
    extract_text_from_txt (ex.txt content)

/-- `upload_document` from `bot.py`, parameterised by the extraction oracles
and by the werkzeug `secure_filename` sanitizer (`san`). -/
def upload_document (ex : Extractors) (san : String → String)
    (req : UploadRequest) (st : ServerState) : UploadResponse × ServerState :=
  if !req.filePresent then
    (.badRequest "No file provided", st)
  else if req.filename = "" then
    (.badRequest "No file selected", st)
  else if !allowed_file req.filename then
    (.badRequest "File type not allowed. Use DOCX, TXT, or PDF", st)
  else
    let filename := san req.filename
    let disk := dictInsert filename req.content st.uploads_dir
    let doc_text := ingestText ex filename req.content disk
    (.ok ("Document \"" ++ filename ++ "\" uploaded successfully") filename,
      { loaded_documents := dictInsert filename doc_text st.loaded_documents,
        uploads_dir := disk })

/-! ### Chat endpoint -/

/-- The JSON body of a chat request: `data.get` makes a missing `message`
field default to the empty string and a missing `document_id` to `None`. -/
structure ChatRequest where
  message : Option String
  document_id : Option String
deriving DecidableEq

/-- One outbound call to the remote completion API. -/
structure CompletionCall where
  model : String
  messages : List (String × String)
  temperature : ℚ
  max_tokens : Nat
deriving DecidableEq

inductive ChatResponse where
  | ok (reply : String) (document_id : Option String)
  | badRequest (error : String)
deriving DecidableEq

def ChatResponse.statusCode : ChatResponse → Nat
  | .ok _ _ => 200
  | .badRequest _ => 400

/-- Python truthiness of an optional string: `None` and `""` are falsy. -/
def truthy : Option String → Bool
  | none => false
  | some s => s ≠ ""

/-- The context-selection block of `chat` (lines 138 to 145 of `bot.py`):
the text accompanying the question, or `none` for the no-document error. -/
def selectContext (document_id : Option String)
    (store : List (String × String)) : Option String :=
  if truthy document_id && dictContains (document_id.getD "") store then
    dictLookup (document_id.getD "") store
  else if !store.isEmpty then
    (store.head?).map (·.2)
  else
    none

def systemPrompt : String :=
  "You are a helpful assistant that answers questions about the provided document. Answer based only on the document content."

/-- The exact completion request `chat` builds. -/
def mkCompletionCall (doc_text user_message : String) : CompletionCall :=
  { model := "gpt-4o-mini"
    messages :=
      [("system", systemPrompt),
       ("user", "Document content:\n" ++ doc_text ++ "\n\nUser question: " ++ user_message)]
    temperature := 7 / 10
    max_tokens := 1000 }

/-- `chat` from `bot.py`, parameterised by the remote API (`api` returns the
reply text of a call).  The second component records the call made to the
remote API, `none` when no call was issued. -/
def chat (api : CompletionCall → String) (req : ChatRequest)
    (store : List (String × String)) : ChatResponse × Option CompletionCall :=
  let user_message := req.message.getD ""
  if user_message = "" then
    (.badRequest "No message provided", none)
  else
    match selectContext req.document_id store with
    | none => (.badRequest "No document loaded. Please upload a document first.", none)
    | some doc_text =>
        let call := mkCompletionCall doc_text user_message
        (.ok (api call) req.document_id, some call)

/-! ### Remaining endpoints -/

/-- `list_documents` from `bot.py`. -/
def list_documents (st : ServerState) : List String :=
  dictKeys st.loaded_documents

/-- `clear_documents` from `bot.py`: empties the in-memory table (the upload
directory on disk is untouched). -/
def clear_documents (st : ServerState) : String × ServerState :=
  ("All documents cleared", { st with loaded_documents := [] })

/-- `health` from `bot.py`. -/
def health : String × Nat :=
  ("Server is running", 200)

/-! ### Operation traces, for the store invariant -/

/-- One incoming HTTP request. -/
inductive Request where
  | upload (req : UploadRequest)
  | chatMsg (req : ChatRequest)
  | documents
  | healthCheck
  | clear

/-- State transition of one request.  `chat`, `list_documents` and `health`
contain no assignment to `loaded_documents` or to the upload directory, so
they leave the state unchanged. -/
def step (ex : Extractors) (san : String → String) :
    Request → ServerState → ServerState
  | .upload r, st => (upload_document ex san r st).2
  | .chatMsg _, st => st
  | .documents, st => st
  | .healthCheck, st => st
  | .clear, st => (clear_documents st).2

/-- Run a list of requests in order. -/
def run (ex : Extractors) (san : String → String) :
    List Request → ServerState → ServerState
  | [], st => st
  | r :: rest, st => run ex san rest (step ex san r st)

/-- The validation gate of `upload_document`: exactly the requests that reach
ingestion (and then always succeed). -/
def uploadAccepted (req : UploadRequest) : Bool :=
  req.filePresent && !(req.filename = "") && allowed_file req.filename

/-- Key bookkeeping following the spec words for the store invariant: a
successful upload inserts or overwrites its sanitized key, clear empties the
set, every other operation leaves it alone.  `insertKeySpec` mirrors dict
key behaviour: an existing key keeps its position, a new key is appended. -/
def insertKeySpec (k : String) (ks : List String) : List String :=
  if k ∈ ks then ks else ks ++ [k]

/-- Modelled from the spec: the keys the Document Store should hold after a
request trace, per the invariant "keys are exactly the set of successfully
ingested documents still resident in memory". -/
def specSuccessfulKeys (san : String → String) :
    List Request → List String → List String
  | [], ks => ks
  | .upload r :: rest, ks =>
      specSuccessfulKeys san rest
        (if uploadAccepted r then insertKeySpec (san r.filename) ks else ks)
  | .clear :: rest, _ => specSuccessfulKeys san rest []
  | _ :: rest, ks => specSuccessfulKeys san rest ks

/-! ### Helper lemmas -/

/-- Python `s.startswith(pre)`; used to state the error-prefix properties. -/
def beginsWith (pre s : String) : Bool :=
  decide (pre.data <+: s.data)

theorem beginsWith_append (pre rest : String) :
    beginsWith pre (pre ++ rest) = true := by
  simp only [beginsWith, decide_eq_true_eq, String.data_append]
  exact ⟨rest.data, rfl⟩

theorem dictLookup_dictInsert_self (k v : String) (d : List (String × String)) :
    dictLookup k (dictInsert k v d) = some v := by
  induction d with
  | nil => simp [dictInsert, dictLookup]
  | cons p rest ih =>
      obtain ⟨a, b⟩ := p
      by_cases h : a = k <;> simp [dictInsert, dictLookup, h, ih]

theorem dictLookup_dictInsert_ne (j k v : String) (d : List (String × String))
    (h : j ≠ k) : dictLookup j (dictInsert k v d) = dictLookup j d := by
  induction d with
  | nil => simp [dictInsert, dictLookup, Ne.symm h]
  | cons p rest ih =>
      obtain ⟨a, b⟩ := p
      by_cases ha : a = k
      · simp [dictInsert, dictLookup, ha, Ne.symm h]
      · by_cases hj : a = j <;> simp [dictInsert, dictLookup, ha, hj, h, ih]

theorem dictKeys_dictInsert (k v : String) (d : List (String × String)) :
    dictKeys (dictInsert k v d) = insertKeySpec k (dictKeys d) := by
  induction d with
  | nil => simp [dictInsert, dictKeys, insertKeySpec]
  | cons p rest ih =>
      obtain ⟨a, b⟩ := p
      by_cases h : a = k
      · subst h
        simp [dictInsert, dictKeys, insertKeySpec]
      · have hne : ¬k = a := fun hc => h hc.symm
        simp only [dictInsert, if_neg h, dictKeys, List.map_cons] at ih ⊢
        rw [ih]
        simp only [insertKeySpec, List.mem_cons, hne, false_or]
        by_cases hk : k ∈ List.map (fun x => x.1) rest <;> simp [hk]

theorem data_pyLower (s : String) : (pyLower s).data = s.data.map Char.toLower :=
  rfl

theorem data_pySliceDropLast4 (s : String) :
    (pySliceDropLast4 s).data = s.data.take (s.data.length - 4) :=
  rfl

theorem pyEndsWith_true_iff (s t : String) :
    pyEndsWith s t = true ↔ t.data <:+ s.data := by
  simp [pyEndsWith]

/-- A string ending in `".pdf"` does not end in `".docx"`: the last character
would have to be both `f` and `x`. -/
theorem pdfSuffix_not_docx {s : String} (h : pyEndsWith s ".pdf" = true) :
    pyEndsWith s ".docx" = false := by
  rw [pyEndsWith_true_iff] at h
  rw [pyEndsWith, decide_eq_false_iff_not]
  intro hdocx
  obtain ⟨t1, ht1⟩ := h
  obtain ⟨t2, ht2⟩ := hdocx
  have h1 : s.data.getLast? = some 'f' := by
    rw [← ht1, List.getLast?_append]
    rfl
  have h2 : s.data.getLast? = some 'x' := by
    rw [← ht2, List.getLast?_append]
    rfl
  rw [h1] at h2
  exact absurd (Option.some.inj h2) (by decide)

/-- The docx-equivalent name differs from a filename whose lowercase form
ends in `".pdf"`: the two differ in length by one. -/
theorem docxEquiv_ne_pdfName {f : String}
    (h : pyEndsWith (pyLower f) ".pdf" = true) :
    pySliceDropLast4 f ++ ".docx" ≠ f := by
  intro heq
  rw [pyEndsWith_true_iff] at h
  have h4 : (".pdf" : String).data.length = 4 := by decide
  have hlen4 : 4 ≤ f.data.length := by
    have hle := h.length_le
    rw [h4, data_pyLower, List.length_map] at hle
    exact hle
  have hlen := congrArg (fun s => s.data.length) heq
  simp only [String.data_append, List.length_append, data_pySliceDropLast4,
    List.length_take] at hlen
  have h5 : (".docx" : String).data.length = 5 := by decide
  rw [h5] at hlen
  omega

/-- A validated upload always ingests: explicit form of `upload_document`
once the three guards have passed. -/
theorem upload_document_accepted (ex : Extractors) (san : String → String)
    (req : UploadRequest) (st : ServerState)
    (hp : req.filePresent = true) (hn : req.filename ≠ "")
    (ha : allowed_file req.filename = true) :
    upload_document ex san req st =
      (.ok ("Document \"" ++ san req.filename ++ "\" uploaded successfully")
          (san req.filename),
        { loaded_documents :=
            dictInsert (san req.filename)
              (ingestText ex (san req.filename) req.content
                (dictInsert (san req.filename) req.content st.uploads_dir))
              st.loaded_documents,
          uploads_dir := dictInsert (san req.filename) req.content st.uploads_dir }) := by
  simp [upload_document, hp, hn, ha]

/-- Extraction dispatch for a filename whose lowercase form ends in `".pdf"`. -/
theorem ingestText_pdf (ex : Extractors) (fname : String) (content : Bytes)
    (disk : List (String × Bytes))
    (hpdf : pyEndsWith (pyLower fname) ".pdf" = true) :
    ingestText ex fname content disk =
      match dictLookup (pySliceDropLast4 fname ++ ".docx") disk with
      | some docxBytes => extract_text_from_docx (ex.docx docxBytes)
      | none => extract_text_from_pdf (ex.pdf content) := by
  rw [ingestText, pdfSuffix_not_docx hpdf]
  simp [hpdf]

/-! ### Concrete data for witnesses and counterexamples -/

/-- Extraction oracles that succeed on every input, tagging the bytes. -/
def sampleExtractors : Extractors where
  docx := fun b => .ok ["docx text of " ++ b]
  txt := fun b => .ok ("txt text of " ++ b)
  pdf := fun b => .ok ["pdf text of " ++ b]

/-- Extraction oracles whose PDF parser always raises, modelling a corrupted
PDF, while the docx parser succeeds. -/
def corruptPdfExtractors : Extractors where
  docx := fun _ => .ok ["hello from docx"]
  txt := fun b => .ok b
  pdf := fun _ => .error "bad xref table"

/-! ### Claims -/

/-- Claim C1: for every upload of a file whose sanitized name ends in
`.pdf` (case-insensitively), if a file with the same base name and the
`.docx` extension already exists in the upload directory then ingest stores
under the PDF key the text extracted from that pre-existing docx file,
otherwise the text extracted from the uploaded PDF bytes. -/
theorem pdf_upload_prefers_existing_docx (ex : Extractors) (san : String → String)
    (req : UploadRequest) (st : ServerState)
    (hp : req.filePresent = true) (hn : req.filename ≠ "")
    (ha : allowed_file req.filename = true)
    (hpdf : pyEndsWith (pyLower (san req.filename)) ".pdf" = true) :
    (∀ docxBytes,
        dictLookup (pySliceDropLast4 (san req.filename) ++ ".docx") st.uploads_dir
            = some docxBytes →
          dictLookup (san req.filename)
              (upload_document ex san req st).2.loaded_documents
            = some (extract_text_from_docx (ex.docx docxBytes))) ∧
    (dictLookup (pySliceDropLast4 (san req.filename) ++ ".docx") st.uploads_dir
        = none →
      dictLookup (san req.filename)
          (upload_document ex san req st).2.loaded_documents
        = some (extract_text_from_pdf (ex.pdf req.content))) := by
  have hkey := docxEquiv_ne_pdfName hpdf
  rw [upload_document_accepted ex san req st hp hn ha]
  constructor
  · intro docxBytes hb
    rw [dictLookup_dictInsert_self, ingestText_pdf _ _ _ _ hpdf,
      dictLookup_dictInsert_ne _ _ _ _ hkey, hb]
  · intro hb
    rw [dictLookup_dictInsert_self, ingestText_pdf _ _ _ _ hpdf,
      dictLookup_dictInsert_ne _ _ _ _ hkey, hb]

theorem pdf_upload_prefers_existing_docx_witness :
    dictLookup "report.pdf"
        (upload_document sampleExtractors id ⟨true, "report.pdf", "PDFBYTES"⟩
            ⟨[], [("report.docx", "DOCXBYTES")]⟩).2.loaded_documents
      = some (extract_text_from_docx (sampleExtractors.docx "DOCXBYTES")) ∧
    dictLookup "report.pdf"
        (upload_document sampleExtractors id ⟨true, "report.pdf", "PDFBYTES"⟩
            ⟨[], []⟩).2.loaded_documents
      = some (extract_text_from_pdf (sampleExtractors.pdf "PDFBYTES")) :=
  ⟨(pdf_upload_prefers_existing_docx sampleExtractors id
      ⟨true, "report.pdf", "PDFBYTES"⟩ ⟨[], [("report.docx", "DOCXBYTES")]⟩
      rfl (by decide) (by decide) (by decide)).1 "DOCXBYTES" (by decide),
   (pdf_upload_prefers_existing_docx sampleExtractors id
      ⟨true, "report.pdf", "PDFBYTES"⟩ ⟨[], []⟩
      rfl (by decide) (by decide) (by decide)).2 (by decide)⟩

/-- Claim C2 counterexample: a corrupted PDF (its parser raises) uploaded
while a same-base docx exists on disk still returns 200, but the stored text
is the docx text and does not begin with either error prefix, refuting the
unconditional claim. -/
theorem corrupt_pdf_stored_text_not_error_prefixed :
    corruptPdfExtractors.pdf "PDFBYTES" = Except.error "bad xref table" ∧
    (upload_document corruptPdfExtractors id ⟨true, "report.pdf", "PDFBYTES"⟩
        ⟨[], [("report.docx", "DOCXBYTES")]⟩).1.statusCode = 200 ∧
    dictLookup "report.pdf"
        (upload_document corruptPdfExtractors id ⟨true, "report.pdf", "PDFBYTES"⟩
            ⟨[], [("report.docx", "DOCXBYTES")]⟩).2.loaded_documents
      = some "hello from docx" ∧
    beginsWith "Error reading PDF: " "hello from docx" = false ∧
    beginsWith "Error reading document: " "hello from docx" = false := by
  refine ⟨rfl, rfl, ?_, by decide, by decide⟩
  decide

/-- Claim C2 (amended): the extract functions return the fixed error prefix
followed by the failure message instead of raising, and a corrupted PDF
upload with no same-base docx on disk still returns 200 with the stored
text carrying the PDF error prefix. -/
theorem extract_error_prefix_and_corrupt_pdf_upload (ex : Extractors)
    (san : String → String) (req : UploadRequest) (st : ServerState) (e : String)
    (hp : req.filePresent = true) (hn : req.filename ≠ "")
    (ha : allowed_file req.filename = true)
    (hpdf : pyEndsWith (pyLower (san req.filename)) ".pdf" = true)
    (hnodocx : dictLookup (pySliceDropLast4 (san req.filename) ++ ".docx")
        st.uploads_dir = none)
    (herr : ex.pdf req.content = Except.error e) :
    (∀ msg, extract_text_from_docx (Except.error msg)
        = "Error reading document: " ++ msg) ∧
    (∀ msg, extract_text_from_txt (Except.error msg)
        = "Error reading document: " ++ msg) ∧
    (∀ msg, extract_text_from_pdf (Except.error msg)
        = "Error reading PDF: " ++ msg) ∧
    (upload_document ex san req st).1.statusCode = 200 ∧
    dictLookup (san req.filename)
        (upload_document ex san req st).2.loaded_documents
      = some ("Error reading PDF: " ++ e) ∧
    beginsWith "Error reading PDF: " ("Error reading PDF: " ++ e) = true := by
  have hkey := docxEquiv_ne_pdfName hpdf
  rw [upload_document_accepted ex san req st hp hn ha]
  refine ⟨fun msg => rfl, fun msg => rfl, fun msg => rfl, rfl, ?_,
    beginsWith_append _ _⟩
  rw [dictLookup_dictInsert_self, ingestText_pdf _ _ _ _ hpdf,
    dictLookup_dictInsert_ne _ _ _ _ hkey, hnodocx, herr]
  rfl

theorem extract_error_prefix_and_corrupt_pdf_upload_witness :
    (upload_document corruptPdfExtractors id ⟨true, "report.pdf", "PDFBYTES"⟩
        ⟨[], []⟩).1.statusCode = 200 ∧
    dictLookup "report.pdf"
        (upload_document corruptPdfExtractors id ⟨true, "report.pdf", "PDFBYTES"⟩
            ⟨[], []⟩).2.loaded_documents
      = some ("Error reading PDF: " ++ "bad xref table") ∧
    beginsWith "Error reading PDF: " ("Error reading PDF: " ++ "bad xref table")
      = true :=
  have h := extract_error_prefix_and_corrupt_pdf_upload corruptPdfExtractors id
    ⟨true, "report.pdf", "PDFBYTES"⟩ ⟨[], []⟩ "bad xref table"
    rfl (by decide) (by decide) (by decide) (by decide) rfl
  ⟨h.2.2.2.1, h.2.2.2.2.1, h.2.2.2.2.2⟩

/-- Claim C6: an upload whose filename fails the extension allow-list check
gets a 400 response and leaves the whole state, in particular the Document
Store, unchanged. -/
theorem disallowed_extension_rejected (ex : Extractors) (san : String → String)
    (req : UploadRequest) (st : ServerState)
    (hbad : allowed_file req.filename = false) :
    (upload_document ex san req st).1.statusCode = 400 ∧
    (upload_document ex san req st).2 = st := by
  cases hpb : req.filePresent with
  | false => simp [upload_document, hpb, UploadResponse.statusCode]
  | true =>
      by_cases hn : req.filename = "" <;>
        simp [upload_document, hpb, hn, hbad, UploadResponse.statusCode]

theorem disallowed_extension_rejected_witness :
    (upload_document sampleExtractors id ⟨true, "payload.exe", "MZBYTES"⟩
        ⟨[("a.txt", "texta")], []⟩).1.statusCode = 400 ∧
    (upload_document sampleExtractors id ⟨true, "payload.exe", "MZBYTES"⟩
        ⟨[("a.txt", "texta")], []⟩).2 = ⟨[("a.txt", "texta")], []⟩ :=
  disallowed_extension_rejected sampleExtractors id
    ⟨true, "payload.exe", "MZBYTES"⟩ ⟨[("a.txt", "texta")], []⟩ (by decide)

/-- Claim C3 counterexample: on an empty store, a chat request whose
message is missing gets the missing-message 400 error, not the
no-document-loaded error the claim promises for every request. -/
theorem empty_store_chat_wrong_error_for_missing_message :
    (chat (fun _ => "reply") ⟨none, none⟩ []).1
      = ChatResponse.badRequest "No message provided" ∧
    "No message provided" ≠ "No document loaded. Please upload a document first." := by
  exact ⟨rfl, by decide⟩

/-- Claim C3 (amended): every chat request carrying a non-empty message,
issued while the store is empty, gets a 400 with the no-document-loaded
error and the remote API is never called; a missing or empty message also
yields 400 without a call, but with the missing-message error. -/
theorem empty_store_chat_no_document_error (api : CompletionCall → String)
    (req : ChatRequest) (hm : req.message.getD "" ≠ "") :
    chat api req []
      = (ChatResponse.badRequest "No document loaded. Please upload a document first.",
          none) ∧
    (chat api req []).1.statusCode = 400 := by
  have h : chat api req []
      = (ChatResponse.badRequest "No document loaded. Please upload a document first.",
          none) := by
    simp [chat, selectContext, dictContains, dictLookup, hm]
  exact ⟨h, by rw [h]; rfl⟩

theorem empty_store_chat_no_document_error_witness :
    chat (fun _ => "reply") ⟨some "hello", none⟩ []
      = (ChatResponse.badRequest "No document loaded. Please upload a document first.",
          none) ∧
    (chat (fun _ => "reply") ⟨some "hello", none⟩ []).1.statusCode = 400 :=
  empty_store_chat_no_document_error (fun _ => "reply") ⟨some "hello", none⟩
    (by decide)

/-- Claim C4: when the requested id is absent, or provided but not a key of
the store, and the store is non-empty, the context selector returns the text
of the first entry in insertion order rather than failing. -/
theorem selector_falls_back_to_first_entry (requestedId : Option String)
    (store : List (String × String)) (hne : store ≠ [])
    (habs : ∀ s, requestedId = some s → dictContains s store = false) :
    ∃ firstEntry rest, store = firstEntry :: rest ∧
      selectContext requestedId store = some firstEntry.2 := by
  cases store with
  | nil => exact absurd rfl hne
  | cons p rest =>
      refine ⟨p, rest, rfl, ?_⟩
      cases requestedId with
      | none => simp [selectContext, truthy]
      | some s =>
          have hc := habs s rfl
          simp [selectContext, truthy, hc]

theorem selector_falls_back_to_first_entry_witness :
    ∃ firstEntry rest,
      ([("a.txt", "textA"), ("b.txt", "textB")] : List (String × String))
        = firstEntry :: rest ∧
      selectContext (some "missing.txt") [("a.txt", "textA"), ("b.txt", "textB")]
        = some firstEntry.2 :=
  selector_falls_back_to_first_entry (some "missing.txt")
    [("a.txt", "textA"), ("b.txt", "textB")] (by decide)
    (fun s hs => by cases hs; decide)

/-- Claim C5: whenever chat issues a call to the remote API, that call has
exactly two prompt turns (the fixed system instruction and the labelled
user turn built from the selected context and the question), the fixed
model identifier, temperature 7/10, and a 1000-token output cap; the
request carries no field that could alter any of them. -/
theorem chat_call_is_fixed_prompt (api : CompletionCall → String)
    (req : ChatRequest) (store : List (String × String)) (c : CompletionCall)
    (h : (chat api req store).2 = some c) :
    ∃ doc_text, selectContext req.document_id store = some doc_text ∧
      c = mkCompletionCall doc_text (req.message.getD "") ∧
      c.model = "gpt-4o-mini" ∧
      c.temperature = 7 / 10 ∧
      c.max_tokens = 1000 ∧
      c.messages
        = [("system", systemPrompt),
           ("user", "Document content:\n" ++ doc_text ++ "\n\nUser question: "
              ++ req.message.getD "")] := by
  simp only [chat] at h
  by_cases hm : req.message.getD "" = ""
  · simp [hm] at h
  · rw [if_neg hm] at h
    cases hsel : selectContext req.document_id store with
    | none => rw [hsel] at h; simp at h
    | some doc_text =>
        rw [hsel] at h
        simp only [] at h
        have hc : c = mkCompletionCall doc_text (req.message.getD "") :=
          (Option.some.inj h).symm
        subst hc
        exact ⟨doc_text, rfl, rfl, rfl, rfl, rfl, rfl⟩

theorem chat_call_is_fixed_prompt_witness :
    ∃ doc_text, selectContext none [("a.txt", "textA")] = some doc_text ∧
      mkCompletionCall "textA" "hi" = mkCompletionCall doc_text "hi" ∧
      (mkCompletionCall "textA" "hi").model = "gpt-4o-mini" ∧
      (mkCompletionCall "textA" "hi").temperature = 7 / 10 ∧
      (mkCompletionCall "textA" "hi").max_tokens = 1000 ∧
      (mkCompletionCall "textA" "hi").messages
        = [("system", systemPrompt),
           ("user", "Document content:\n" ++ doc_text ++ "\n\nUser question: "
              ++ "hi")] := by
  exact chat_call_is_fixed_prompt (fun _ => "reply") ⟨some "hi", none⟩
    [("a.txt", "textA")] (mkCompletionCall "textA" "hi") rfl

/-- Claim C7: clearing empties the Document Store; listing then returns the
empty list, and any chat call against the cleared store (before further
uploads) returns 400 without calling the remote API. -/
theorem clear_empties_the_store (st : ServerState) :
    (clear_documents st).2.loaded_documents = [] ∧
    list_documents (clear_documents st).2 = [] ∧
    (∀ api req,
        (chat api req (clear_documents st).2.loaded_documents).1.statusCode = 400 ∧
        (chat api req (clear_documents st).2.loaded_documents).2 = none) := by
  refine ⟨rfl, rfl, fun api req => ?_⟩
  by_cases hm : req.message.getD "" = "" <;>
    simp [chat, selectContext, dictContains, dictLookup, hm,
      clear_documents, ChatResponse.statusCode]

/-- Claim C9 counterexample: with the empty string as a loaded key and the
client supplying the empty-string id, the guard is falsy so the fallback to
the first document is taken (the context is the first entry, not the one
stored under the supplied id), yet the echoed id is neither null nor absent
from the store. -/
theorem chat_echo_empty_id_counterexample :
    (chat (fun _ => "reply") ⟨some "q", some ""⟩
        [("a.txt", "textA"), ("", "textEmptyKey")]).2
      = some (mkCompletionCall "textA" "q") ∧
    (chat (fun _ => "reply") ⟨some "q", some ""⟩
        [("a.txt", "textA"), ("", "textEmptyKey")]).1
      = ChatResponse.ok "reply" (some "") ∧
    dictContains "" [("a.txt", "textA"), ("", "textEmptyKey")] = true ∧
    (some "" : Option String) ≠ none := by
  exact ⟨rfl, rfl, by decide, by decide⟩

/-- Claim C9 (amended): a successful chat response echoes the client-supplied
document id, not the key of the document used as context; when the fallback
branch is taken the echoed id is null, the empty string, or an id absent
from the store. -/
theorem chat_echoes_supplied_id (api : CompletionCall → String)
    (req : ChatRequest) (store : List (String × String)) (reply : String)
    (d : Option String)
    (h : (chat api req store).1 = ChatResponse.ok reply d) :
    d = req.document_id ∧
    ((truthy req.document_id && dictContains (req.document_id.getD "") store)
        = false →
      d = none ∨ d = some "" ∨ dictContains (d.getD "") store = false) := by
  have hd : d = req.document_id := by
    simp only [chat] at h
    by_cases hm : req.message.getD "" = ""
    · rw [if_pos hm] at h; exact absurd h (by simp)
    · rw [if_neg hm] at h
      cases hsel : selectContext req.document_id store with
      | none => rw [hsel] at h; simp at h
      | some doc_text =>
          rw [hsel] at h
          exact ((ChatResponse.ok.injEq _ _ _ _).mp h).2.symm
  subst hd
  refine ⟨rfl, fun hguard => ?_⟩
  cases hid : req.document_id with
  | none => exact Or.inl rfl
  | some s =>
      by_cases hs : s = ""
      · exact Or.inr (Or.inl (by rw [hs]))
      · rw [hid] at hguard
        have ht : truthy (some s) = true := by simp [truthy, hs]
        rw [ht, Bool.true_and] at hguard
        exact Or.inr (Or.inr (by simpa using hguard))

theorem chat_echoes_supplied_id_witness :
    (some "missing.txt" : Option String) = some "missing.txt" ∧
    ((truthy (some "missing.txt")
        && dictContains ((some "missing.txt" : Option String).getD "")
             [("a.txt", "textA")]) = false →
      (some "missing.txt" : Option String) = none ∨
      (some "missing.txt" : Option String) = some "" ∨
      dictContains ((some "missing.txt" : Option String).getD "")
          [("a.txt", "textA")] = false) :=
  chat_echoes_supplied_id (fun _ => "reply") ⟨some "q", some "missing.txt"⟩
    [("a.txt", "textA")] "reply" (some "missing.txt") (by decide)

/-- Claim C10: a chat request whose message field is present but empty is
treated exactly like a missing message: 400 with the missing-message error,
no remote call, and the outcome is the same for every store. -/
theorem empty_message_same_as_missing (api : CompletionCall → String)
    (document_id : Option String) (store : List (String × String)) :
    chat api ⟨some "", document_id⟩ store
      = (ChatResponse.badRequest "No message provided", none) ∧
    chat api ⟨none, document_id⟩ store
      = chat api ⟨some "", document_id⟩ store := by
  exact ⟨rfl, rfl⟩

/-- Keys of the store after an upload: a validated upload inserts or
overwrites its sanitized key, a rejected one changes nothing. -/
theorem dictKeys_upload (ex : Extractors) (san : String → String)
    (req : UploadRequest) (st : ServerState) :
    dictKeys (upload_document ex san req st).2.loaded_documents
      = if uploadAccepted req then
          insertKeySpec (san req.filename) (dictKeys st.loaded_documents)
        else dictKeys st.loaded_documents := by
  cases hp : req.filePresent with
  | false => simp [upload_document, uploadAccepted, hp]
  | true =>
      by_cases hn : req.filename = ""
      · simp [upload_document, uploadAccepted, hp, hn]
      · cases ha : allowed_file req.filename with
        | false => simp [upload_document, uploadAccepted, hp, hn, ha]
        | true =>
            simp [upload_document, uploadAccepted, hp, hn, ha, dictKeys_dictInsert]

/-- An upload responds 200 exactly when it passes the validation gate. -/
theorem upload_ok_iff_accepted (ex : Extractors) (san : String → String)
    (req : UploadRequest) (st : ServerState) :
    (upload_document ex san req st).1.statusCode = 200 ↔ uploadAccepted req = true := by
  cases hp : req.filePresent with
  | false => simp [upload_document, uploadAccepted, hp, UploadResponse.statusCode]
  | true =>
      by_cases hn : req.filename = ""
      · simp [upload_document, uploadAccepted, hp, hn, UploadResponse.statusCode]
      · cases ha : allowed_file req.filename with
        | false =>
            simp [upload_document, uploadAccepted, hp, hn, ha,
              UploadResponse.statusCode]
        | true =>
            simp [upload_document, uploadAccepted, hp, hn, ha,
              UploadResponse.statusCode]

/-- Claim C8: after any trace of requests, the keys of the Document Store
are exactly those prescribed by the bookkeeping that inserts the sanitized
key of each upload passing validation (which is exactly each upload that
responds 200) and resets on clear, while chat, documents and health leave
the store alone. -/
theorem store_keys_track_successful_uploads :
    (∀ (ex : Extractors) (san : String → String) (ops : List Request)
        (st : ServerState),
      dictKeys (run ex san ops st).loaded_documents
        = specSuccessfulKeys san ops (dictKeys st.loaded_documents)) ∧
    (∀ (ex : Extractors) (san : String → String) (req : UploadRequest)
        (st : ServerState),
      (upload_document ex san req st).1.statusCode = 200
        ↔ uploadAccepted req = true) := by
  refine ⟨fun ex san ops => ?_, upload_ok_iff_accepted⟩
  induction ops with
  | nil => intro st; rfl
  | cons r rest ih =>
      intro st
      cases r with
      | upload u =>
          rw [run, ih, step, dictKeys_upload]
          rfl
      | chatMsg c => rw [run, ih]; rfl
      | documents => rw [run, ih]; rfl
      | healthCheck => rw [run, ih]; rfl
      | clear => rw [run, ih]; rfl

end TashaApi
